import Mathlib

/-!
Verification of the OPD queue LCD display client
(`src/OPD_Management/esp32_lcd_display/esp32_lcd_display.ino`).

The sketch is shallowly embedded as pure Lean functions:

* `natDec` / `intDec` model Arduino `String(int)` decimal rendering
  (a fuel-based most-significant-digit-first recursion, fuel `n+1` is
  always sufficient since `n / 10 < n`);
* `ratTrunc` models the C cast `(int)` applied to the `float`
  `estimatedWait`; the float value itself is modelled as a rational and
  the cast as truncation toward zero;
* `padRight` models the `padRight` helper (pad with spaces while the
  length is below the target, then truncate with `substring` if above);
* `JsonData` / `JsonDoc` / `ParseResult` model the ArduinoJson view of
  the response body: `Option` fields model "absent or null" (the code
  uses `.isNull()` and the `|` defaulting operator), `JsonDoc.success`
  models the truth of `doc["success"] == true`'s operand, and
  `ParseResult.err` models a `DeserializationError`;
* `fetchAndDisplay` models the function of the same name as a pure map
  from a cycle environment (WiFi link state, HTTP status code returned
  by `http.GET()`, decoded body) to the cycle's LCD output.  The
  `requested` field records whether the code reached the HTTP request
  (the WiFi-lost branch returns before building the URL), and `branch`
  records which of the four source branches produced the frame;
* `shouldPoll` models the `loop()` guard
  `now - lastPollTime >= POLL_INTERVAL` in 32-bit unsigned arithmetic
  (`millis()` and `lastPollTime` are `unsigned long`, 32 bits on ESP32);
* `waitForWifi` / `setup` model the bounded startup connect loop
  (`attempts < 30`, `delay(500)` per attempt) followed by the final
  re-check; `readings k` is the value of the `k`-th `WiFi.status()`
  call (`true` = `WL_CONNECTED`).  `SetupResult.halted` models the
  terminal `while (true) { delay(1000); }`, which never returns, so
  `loop()`/`fetchAndDisplay` are never reached; `bootAndRun` makes that
  explicit: the list of poll-cycle outputs is empty when setup halted.
-/

namespace OPD

/-- Decimal digits of `n`, most significant first, with explicit fuel so the
recursion is structural.  Fuel `n + 1` always suffices. -/
def decDigitsAux : Nat → Nat → List Char
  | 0, _ => []
  | fuel+1, n =>
    if n < 10 then [Char.ofNat (48 + n)]
    else decDigitsAux fuel (n / 10) ++ [Char.ofNat (48 + n % 10)]

/-- Decimal rendering of a natural number, modelling Arduino `String(n)`. -/
def natDec (n : Nat) : String := ⟨decDigitsAux (n + 1) n⟩

/-- Decimal rendering of an integer, modelling Arduino `String(int)`:
a leading minus sign for negatives, plain digits otherwise. -/
def intDec (i : Int) : String :=
  if i < 0 then "-" ++ natDec i.natAbs else natDec i.toNat

/-- Model of the C cast `(int)` on `estimatedWait`: truncation toward zero.
The float is modelled as a rational. -/
def ratTrunc (q : ℚ) : Int :=
  if 0 ≤ q.num then ((q.num.natAbs / q.den : Nat) : Int)
  else -((q.num.natAbs / q.den : Nat) : Int)

/-- Model of the sketch's `padRight`: append single spaces while the length is
below `len` (i.e. append `len - length` spaces), then truncate with
`substring(0, len)` if the length exceeds `len`. -/
def padRight (s : String) (len : Nat) : String :=
  let padded : String := ⟨s.data ++ List.replicate (len - s.data.length) ' '⟩
  if len < padded.data.length then ⟨padded.data.take len⟩ else padded

/-- The `data` object of the response JSON as the code reads it.
`none` models a field that is absent or JSON `null` (ArduinoJson's
`.isNull()` is true, and the `|` defaulting operator substitutes the
default, in exactly those cases). -/
structure JsonData where
  current_token : Option Int
  estimated_wait_min : Option ℚ
  waiting_count : Option Int
  status : Option String
deriving DecidableEq

/-- The decoded top-level document: `success` is the truth value of
`doc["success"] == true` (false when the field is absent, null, or any
non-`true` value), and `data` is the nested object (all of whose reads
default when `data` itself is absent, which the field `Option`s cover). -/
structure JsonDoc where
  success : Bool
  data : JsonData
deriving DecidableEq

/-- Result of `deserializeJson` on the payload: `ok` when no
`DeserializationError` occurred, `err` carrying `error.c_str()` otherwise. -/
inductive ParseResult where
  | ok (doc : JsonDoc)
  | err (msg : String)
deriving DecidableEq

/-- What the network returns for this cycle: the `http.GET()` return value
(HTTP status, or a negative library error code) and the decoded body. -/
structure NetResponse where
  status : Int
  payload : ParseResult
deriving DecidableEq

/-- Environment of one `fetchAndDisplay` call: the WiFi link state read at
entry (`WiFi.status() == WL_CONNECTED`) and the network's response. -/
structure Env where
  wifiConnected : Bool
  response : NetResponse
deriving DecidableEq

/-- Which source branch produced the cycle's LCD frame. -/
inductive Branch where
  | wifiLost
  | httpError
  | parseError
  | success
deriving DecidableEq

/-- Observable output of one cycle: the string printed at row 0, the string
printed at row 1 (`none` when the branch prints nothing on row 1 after
`lcd.clear()`), whether the HTTP request was reached, and the branch taken. -/
structure CycleOutput where
  line1 : String
  line2 : Option String
  requested : Bool
  branch : Branch
deriving DecidableEq

/-- `data["current_token"].isNull() ? -1 : (int)data["current_token"]` -/
def extractToken (d : JsonData) : Int :=
  match d.current_token with
  | none => -1
  | some v => v

/-- The token part of line 1: zero-pad below 10 with `" 00"`, below 100 with
`"0"`, otherwise the plain digits. -/
def tokenPad (ct : Int) : String :=
  if ct < 10 then "00" ++ intDec ct
  else if ct < 100 then "0" ++ intDec ct
  else intDec ct

/-- Line-1 construction: `"NOW: #"` plus the padded token when the status is
`consulting` and the token is positive, else `"QUEUE IDLE"`. -/
def buildLine1 (status : String) (ct : Int) : String :=
  if status = "consulting" ∧ 0 < ct then "NOW: #" ++ tokenPad ct
  else "QUEUE IDLE"

/-- Line-2 construction: `"Wait: ~" + String((int)estimatedWait) + " min"`. -/
def buildLine2 (w : ℚ) : String :=
  "Wait: ~" ++ intDec (ratTrunc w) ++ " min"

/-- Line 1 as a function of the decoded `data` object. -/
def line1Of (d : JsonData) : String :=
  buildLine1 (d.status.getD "idle") (extractToken d)

/-- The successful-decode branch: extract the four fields with the source's
defaults, build both lines, pad each to 16 columns, print both rows.
`_waitingCount` mirrors the source's `waitingCount` local, which is
extracted but never used. -/
def renderSnapshot (d : JsonData) : CycleOutput :=
  let currentToken : Int := extractToken d
  let estimatedWait : ℚ := d.estimated_wait_min.getD 0
  let _waitingCount : Int := d.waiting_count.getD 0
  let status : String := d.status.getD "idle"
  { line1 := padRight (buildLine1 status currentToken) 16
    line2 := some (padRight (buildLine2 estimatedWait) 16)
    requested := true
    branch := Branch.success }

/-- Pure model of `fetchAndDisplay()`: WiFi check first (early return, before
the URL is built), then the `statusCode == 200` test, then JSON decoding and
the `success` test. -/
def fetchAndDisplay (env : Env) : CycleOutput :=
  if env.wifiConnected = false then
    { line1 := "WiFi Lost...", line2 := none
      requested := false, branch := Branch.wifiLost }
  else if env.response.status = 200 then
    match env.response.payload with
    | ParseResult.ok doc =>
      if doc.success = true then renderSnapshot doc.data
      else
        { line1 := "Parse Error", line2 := none
          requested := true, branch := Branch.parseError }
    | ParseResult.err _ =>
      { line1 := "Parse Error", line2 := none
        requested := true, branch := Branch.parseError }
  else
    { line1 := "Server Error"
      line2 := some ("Code: " ++ intDec env.response.status)
      requested := true, branch := Branch.httpError }

/-- 2^32: `millis()` and `lastPollTime` are `unsigned long` (32 bits on
ESP32). -/
def U32 : Nat := 4294967296

/-- `const int POLL_INTERVAL = 5000;` (converted to `unsigned long` by the
comparison). -/
def POLL_INTERVAL : Nat := 5000

/-- 32-bit unsigned subtraction `a - b`. -/
def wsub32 (a b : Nat) : Nat := (a % U32 + (U32 - b % U32)) % U32

/-- The `loop()` poll guard `now - lastPollTime >= POLL_INTERVAL` in 32-bit
unsigned arithmetic. -/
def shouldPoll (now last : Nat) : Bool :=
  decide (POLL_INTERVAL ≤ wsub32 now last)

/-- The startup connect loop
`while (WiFi.status() != WL_CONNECTED && attempts < 30) { delay(500); attempts++; }`,
returning the final value of `attempts`.  `readings k` is the `k`-th
`WiFi.status()` call; the call with index `a` happens while `attempts = a`.
Fuel-based so the recursion is structural; fuel 31 always suffices since
the loop body runs only while `attempts < 30`. -/
def waitForWifiAux (readings : Nat → Bool) : Nat → Nat → Nat
  | 0, attempts => attempts
  | gas+1, attempts =>
    if readings attempts = true then attempts
    else if 30 ≤ attempts then attempts
    else waitForWifiAux readings gas (attempts + 1)

/-- Final `attempts` value of the startup connect loop. -/
def waitForWifi (readings : Nat → Bool) : Nat :=
  waitForWifiAux readings 31 0

/-- Outcome of `setup()`: either the device proceeds to `loop()` with the
link up, or it prints the failure screen and sits in
`while (true) { delay(1000); }` forever. -/
inductive SetupResult where
  | connected (attemptsUsed : Nat)
  | halted (line1 line2 : String)
deriving DecidableEq

/-- Model of `setup()` after the connect loop: re-read `WiFi.status()` once
(read index `attempts + 1`, since the loop consumed reads `0..attempts`);
on failure show `"WiFi Failed!"` / `"Check config..."` and halt forever. -/
def setup (readings : Nat → Bool) : SetupResult :=
  let attempts := waitForWifi readings
  if readings (attempts + 1) = true then SetupResult.connected attempts
  else SetupResult.halted "WiFi Failed!" "Check config..."

/-- The whole device run, observed as the list of poll-cycle outputs: when
`setup` halted, control never reaches `loop()`, so no cycle (and hence no
fetch) ever happens; otherwise each satisfied poll tick runs
`fetchAndDisplay`. -/
def bootAndRun (readings : Nat → Bool) (cycles : List Env) : List CycleOutput :=
  match setup readings with
  | SetupResult.halted _ _ => []
  | SetupResult.connected _ => cycles.map fetchAndDisplay

/-- The pad-then-truncate helper always returns exactly `len` characters. -/
theorem padRight_length (s : String) (len : Nat) : (padRight s len).length = len := by
  show (padRight s len).data.length = len
  unfold padRight
  by_cases h : len < (s.data ++ List.replicate (len - s.data.length) ' ').length
  · simp only [h, if_true]
    simp [List.length_take]
    omega
  · simp only [h, if_false]
    simp [List.length_append, List.length_replicate] at h ⊢
    omega

/-- With at least one unit of fuel, a single-digit number renders as one
character. -/
theorem decDigitsAux_len1 (fuel n : Nat) (hf : 1 ≤ fuel) (hn : n < 10) :
    (decDigitsAux fuel n).length = 1 := by
  cases fuel with
  | zero => omega
  | succ f => simp [decDigitsAux, hn]

/-- With at least two units of fuel, a two-digit number renders as two
characters. -/
theorem decDigitsAux_len2 (fuel n : Nat) (hf : 2 ≤ fuel) (h1 : 10 ≤ n)
    (h2 : n < 100) : (decDigitsAux fuel n).length = 2 := by
  cases fuel with
  | zero => omega
  | succ f =>
    have hn : ¬ n < 10 := by omega
    simp [decDigitsAux, hn, decDigitsAux_len1 f (n / 10) (by omega) (by omega)]

/-- With at least three units of fuel, a three-digit number renders as three
characters. -/
theorem decDigitsAux_len3 (fuel n : Nat) (hf : 3 ≤ fuel) (h1 : 100 ≤ n)
    (h2 : n < 1000) : (decDigitsAux fuel n).length = 3 := by
  cases fuel with
  | zero => omega
  | succ f =>
    have hn : ¬ n < 10 := by omega
    simp [decDigitsAux, hn,
      decDigitsAux_len2 f (n / 10) (by omega) (by omega) (by omega)]

/-- `natDec` digit counts on the three claim ranges. -/
theorem natDec_len1 (n : Nat) (hn : n < 10) : (natDec n).length = 1 :=
  decDigitsAux_len1 (n + 1) n (by omega) hn

/-- Two-digit range for `natDec`. -/
theorem natDec_len2 (n : Nat) (h1 : 10 ≤ n) (h2 : n < 100) :
    (natDec n).length = 2 :=
  decDigitsAux_len2 (n + 1) n (by omega) h1 h2

/-- Three-digit range for `natDec`. -/
theorem natDec_len3 (n : Nat) (h1 : 100 ≤ n) (h2 : n < 1000) :
    (natDec n).length = 3 :=
  decDigitsAux_len3 (n + 1) n (by omega) h1 h2

/-- A nonnegative integer renders without a sign. -/
theorem intDec_nonneg (i : Int) (h : 0 ≤ i) : intDec i = natDec i.toNat := by
  simp [intDec, show ¬ i < 0 by omega]

/-- Taking the first six characters of `"NOW: #" ++ s` gives `"NOW: #"`. -/
theorem take6_now_head (s : String) :
    (("NOW: #" ++ s : String)).data.take 6 = ("NOW: #" : String).data := by
  rw [String.data_append]
  rw [show ("NOW: #" : String).data = ['N', 'O', 'W', ':', ' ', '#'] from rfl]
  simp

/-- Truncation toward zero of a nonnegative rational is its floor. -/
theorem ratTrunc_nonneg (w : ℚ) (hw : 0 ≤ w) : ratTrunc w = ⌊w⌋ := by
  have hn : 0 ≤ w.num := Rat.num_nonneg.mpr hw
  simp only [ratTrunc, if_pos hn]
  rw [Rat.floor_def, Int.natCast_div, Int.natAbs_of_nonneg hn]

/-- Truncation toward zero of a negative rational is its ceiling. -/
theorem ratTrunc_neg (w : ℚ) (hw : w < 0) : ratTrunc w = ⌈w⌉ := by
  have hn : w.num < 0 := Rat.num_neg.mpr hw
  simp only [ratTrunc, if_neg (by omega : ¬ 0 ≤ w.num)]
  rw [show (⌈w⌉ : ℤ) = -⌊-w⌋ by rw [Int.floor_neg, neg_neg]]
  rw [Rat.floor_def, Rat.neg_num, Rat.neg_den]
  rw [← Int.ofNat_natAbs_of_nonpos (le_of_lt hn)]
  rw [← Int.natCast_div]

/-- C1 counterexample: the WiFi-lost branch hands `"WiFi Lost..."` (12
characters) to the display, so not every branch's line has length 16 — the
padding step runs only in the successful-decode branch. -/
theorem C1_counterexample :
    (fetchAndDisplay ⟨false, ⟨200, ParseResult.err "x"⟩⟩).line1
        = "WiFi Lost..." ∧
    (fetchAndDisplay ⟨false, ⟨200, ParseResult.err "x"⟩⟩).line1.length ≠ 16 := by
  decide

/-- C1 (amended): in the successful-decode branch — both serving and idle —
each of the two lines handed to the display has length exactly 16
(left-justified, space-padded or truncated by `padRight`). -/
theorem C1_success_lines16 (env : Env) (doc : JsonDoc)
    (hw : env.wifiConnected = true) (hs : env.response.status = 200)
    (hp : env.response.payload = ParseResult.ok doc)
    (hsu : doc.success = true) :
    (fetchAndDisplay env).line1.length = 16 ∧
    ∃ l2, (fetchAndDisplay env).line2 = some l2 ∧ l2.length = 16 := by
  have hfd : fetchAndDisplay env = renderSnapshot doc.data := by
    simp [fetchAndDisplay, hw, hs, hp, hsu]
  rw [hfd]
  exact ⟨padRight_length _ _, _, rfl, padRight_length _ _⟩

/-- C1 witness: a concrete consulting snapshot, both lines 16 characters. -/
theorem C1_witness :
    (fetchAndDisplay ⟨true, ⟨200, ParseResult.ok
        ⟨true, ⟨some 7, none, none, some "consulting"⟩⟩⟩⟩).line1.length = 16 ∧
    ∃ l2, (fetchAndDisplay ⟨true, ⟨200, ParseResult.ok
        ⟨true, ⟨some 7, none, none, some "consulting"⟩⟩⟩⟩).line2 = some l2 ∧
      l2.length = 16 :=
  C1_success_lines16
    ⟨true, ⟨200, ParseResult.ok ⟨true, ⟨some 7, none, none, some "consulting"⟩⟩⟩⟩
    ⟨true, ⟨some 7, none, none, some "consulting"⟩⟩ rfl rfl rfl rfl

/-- C5: when the link is down at poll time, the cycle prints
`"WiFi Lost..."` on row 0, prints nothing on row 1, and returns before the
HTTP request is built or issued — the output does not depend on the network
at all. -/
theorem C5_wifi_lost (env : Env) (h : env.wifiConnected = false) :
    (fetchAndDisplay env).line1 = "WiFi Lost..." ∧
    (fetchAndDisplay env).line2 = none ∧
    (fetchAndDisplay env).requested = false ∧
    ∀ r : NetResponse,
      fetchAndDisplay { wifiConnected := env.wifiConnected, response := r }
        = fetchAndDisplay env := by
  simp [fetchAndDisplay, h]

/-- C5 witness: concrete disconnected cycle. -/
theorem C5_witness :
    (fetchAndDisplay ⟨false, ⟨500, ParseResult.err "x"⟩⟩).line1
        = "WiFi Lost..." ∧
    (fetchAndDisplay ⟨false, ⟨500, ParseResult.err "x"⟩⟩).requested = false := by
  have h := C5_wifi_lost ⟨false, ⟨500, ParseResult.err "x"⟩⟩ rfl
  exact ⟨h.1, h.2.2.1⟩

/-- C6: the poll guard is the 32-bit unsigned difference test: it triggers
iff `(now - lastPollTime) mod 2^32` is at least the interval, and for a true
elapsed time `e < 2^32` it triggers iff `e ≥ POLL_INTERVAL`, even when the
counter wraps past zero between `lastPollTime` and `now`. -/
theorem C6_should_poll (now last : Nat) (hn : now < U32) (hl : last < U32) :
    (shouldPoll now last = true ↔
      POLL_INTERVAL ≤ (now + (U32 - last)) % U32) ∧
    (∀ e, e < U32 →
      (shouldPoll ((last + e) % U32) last = true ↔ POLL_INTERVAL ≤ e)) := by
  constructor
  · simp only [shouldPoll, wsub32, decide_eq_true_eq]
    rw [Nat.mod_eq_of_lt hn, Nat.mod_eq_of_lt hl]
  · intro e he
    simp only [shouldPoll, wsub32, decide_eq_true_eq, POLL_INTERVAL, U32] at *
    omega

/-- C6 witness: the counter has wrapped (`now = 5704`, `lastPollTime`
near the top of the 32-bit range, true elapsed time 6000 ms ≥ 5000 ms), and
the guard still triggers. -/
theorem C6_witness :
    shouldPoll ((4294967000 + 6000) % U32) 4294967000 = true := by
  have h := C6_should_poll 0 4294967000 (by decide) (by decide)
  exact (h.2 6000 (by decide)).mpr (by decide)

/-- C10: `waiting_count` is extracted by the decode stage but never
influences the rendered frame: two responses differing only in
`waiting_count` produce identical cycle outputs, in every branch. -/
theorem C10_waiting_count_noninterference (wifi : Bool) (st : Int) (su : Bool)
    (d : JsonData) (w1 w2 : Option Int) :
    fetchAndDisplay
        ⟨wifi, ⟨st, ParseResult.ok ⟨su, { d with waiting_count := w1 }⟩⟩⟩ =
    fetchAndDisplay
        ⟨wifi, ⟨st, ParseResult.ok ⟨su, { d with waiting_count := w2 }⟩⟩⟩ := by
  rfl

/-- C2 counterexample: HTTP status 204 is 2xx, yet the code takes the
Server-Error branch (the test is `statusCode == 200`, not "2xx"), so the
body is never passed to the JSON decoder. -/
theorem C2_counterexample :
    ((200 : Int) ≤ 204 ∧ (204 : Int) < 300) ∧
    (fetchAndDisplay ⟨true, ⟨204, ParseResult.ok
        ⟨true, ⟨some 7, none, none, some "consulting"⟩⟩⟩⟩).branch
      = Branch.httpError ∧
    (fetchAndDisplay ⟨true, ⟨204, ParseResult.ok
        ⟨true, ⟨some 7, none, none, some "consulting"⟩⟩⟩⟩).line1
      = "Server Error" := by
  decide

/-- C2 (amended): with the link up, the response is classified as an HTTP
error — `"Server Error"` on row 0 and the literal status code on row 1 —
iff the status differs from exactly 200; only a status of exactly 200 (not
every 2xx) is passed to the JSON decoder. -/
theorem C2_http_branch (env : Env) (hw : env.wifiConnected = true) :
    ((fetchAndDisplay env).branch = Branch.httpError ↔
      env.response.status ≠ 200) ∧
    (env.response.status ≠ 200 →
      (fetchAndDisplay env).line1 = "Server Error" ∧
      (fetchAndDisplay env).line2
        = some ("Code: " ++ intDec env.response.status)) ∧
    (env.response.status = 200 →
      (fetchAndDisplay env).branch = Branch.parseError ∨
      (fetchAndDisplay env).branch = Branch.success) := by
  obtain ⟨wifi, st, pl⟩ := env
  subst hw
  by_cases hst : st = 200
  · subst hst
    cases pl with
    | ok doc =>
      by_cases hsu : doc.success = true <;>
        simp [fetchAndDisplay, renderSnapshot, hsu]
    | err m => simp [fetchAndDisplay]
  · simp [fetchAndDisplay, hst]

/-- C2 witness: status 500 shows `"Server Error"` / `"Code: 500"`. -/
theorem C2_witness :
    (fetchAndDisplay ⟨true, ⟨500, ParseResult.err ""⟩⟩).line1
        = "Server Error" ∧
    (fetchAndDisplay ⟨true, ⟨500, ParseResult.err ""⟩⟩).line2
        = some ("Code: " ++ intDec 500) := by
  have h := C2_http_branch ⟨true, ⟨500, ParseResult.err ""⟩⟩ rfl
  exact h.2.1 (by decide)

/-- C3: for a successfully decoded snapshot, line 1 starts with `"NOW: #"`
iff the (defaulted) status tag is `"consulting"` and the extracted token is
positive; the extracted token is positive iff the `current_token` field is
present and a positive integer; every other decode yields `"QUEUE IDLE"`;
and this line-1 builder is exactly what the success branch pads and
displays. -/
theorem C3_serving_iff (d : JsonData) :
    ((line1Of d).data.take 6 = ("NOW: #" : String).data ↔
      (d.status.getD "idle" = "consulting" ∧ 0 < extractToken d)) ∧
    (¬(d.status.getD "idle" = "consulting" ∧ 0 < extractToken d) →
      line1Of d = "QUEUE IDLE") ∧
    (0 < extractToken d ↔ ∃ t, d.current_token = some t ∧ 0 < t) ∧
    (renderSnapshot d).line1 = padRight (line1Of d) 16 := by
  refine ⟨?_, ?_, ?_, rfl⟩
  · by_cases hc : d.status.getD "idle" = "consulting" ∧ 0 < extractToken d
    · have hline : line1Of d = "NOW: #" ++ tokenPad (extractToken d) := by
        unfold line1Of buildLine1
        rw [if_pos hc]
      rw [hline]
      exact iff_of_true (take6_now_head _) hc
    · have hline : line1Of d = "QUEUE IDLE" := by
        unfold line1Of buildLine1
        rw [if_neg hc]
      rw [hline]
      exact iff_of_false (by decide) hc
  · intro hc
    unfold line1Of buildLine1
    rw [if_neg hc]
  · cases hct : d.current_token with
    | none => simp [extractToken, hct]
    | some v => simp [extractToken, hct]

/-- C3 witness: an idle snapshot renders `"QUEUE IDLE"`. -/
theorem C3_witness :
    line1Of ⟨none, none, none, some "idle"⟩ = "QUEUE IDLE" :=
  (C3_serving_iff ⟨none, none, none, some "idle"⟩).2.1 (by decide)

/-- C4: the serving line is `"NOW: #"` plus the padded token, and the token
numeral is zero-padded to three characters: two leading zeros on [1,9], one
on [10,99], none on [100,999], and tokens ≥ 1000 render as their literal
digits with no padding. -/
theorem C4_token_format (t : Int) (ht : 1 ≤ t) :
    buildLine1 "consulting" t = "NOW: #" ++ tokenPad t ∧
    (t ≤ 9 → tokenPad t = "00" ++ intDec t ∧ (intDec t).length = 1) ∧
    (10 ≤ t → t ≤ 99 → tokenPad t = "0" ++ intDec t ∧ (intDec t).length = 2) ∧
    (100 ≤ t → t ≤ 999 → tokenPad t = intDec t ∧ (intDec t).length = 3) ∧
    (1000 ≤ t → tokenPad t = intDec t) := by
  have hpos : (0 : Int) < t := by omega
  refine ⟨?_, ?_, ?_, ?_, ?_⟩
  · simp [buildLine1, hpos]
  · intro h9
    refine ⟨by simp [tokenPad, show t < 10 by omega], ?_⟩
    rw [intDec_nonneg t (by omega)]
    exact natDec_len1 t.toNat (by omega)
  · intro h10 h99
    refine ⟨by simp [tokenPad, show ¬ t < 10 by omega, show t < 100 by omega], ?_⟩
    rw [intDec_nonneg t (by omega)]
    exact natDec_len2 t.toNat (by omega) (by omega)
  · intro h100 h999
    refine ⟨by simp [tokenPad, show ¬ t < 10 by omega, show ¬ t < 100 by omega], ?_⟩
    rw [intDec_nonneg t (by omega)]
    exact natDec_len3 t.toNat (by omega) (by omega)
  · intro h1000
    simp [tokenPad, show ¬ t < 10 by omega, show ¬ t < 100 by omega]

/-- C4 witness: token 7 renders as the three-character numeral `"007"`. -/
theorem C4_witness :
    buildLine1 "consulting" 7 = "NOW: #" ++ tokenPad 7 ∧
    tokenPad 7 = "00" ++ intDec 7 ∧ (intDec 7).length = 1 := by
  have h := C4_token_format 7 (by decide)
  exact ⟨h.1, h.2.1 (by decide)⟩

/-- C7 counterexample: status 204 is 2xx and its body fails deserialization,
yet the cycle is classified as an HTTP error, not a decode error — because
only status exactly 200 reaches the decoder. -/
theorem C7_counterexample :
    (fetchAndDisplay ⟨true, ⟨204, ParseResult.err "InvalidInput"⟩⟩).branch
        ≠ Branch.parseError ∧
    (fetchAndDisplay ⟨true, ⟨204, ParseResult.err "InvalidInput"⟩⟩).line1
        ≠ "Parse Error" ∧
    (fetchAndDisplay ⟨true, ⟨204, ParseResult.err "InvalidInput"⟩⟩).line1
        = "Server Error" := by
  decide

/-- C7 (amended): for a response with status exactly 200 (the only status
passed to the decoder), the outcome is a decode error iff deserialization
fails or the decoded document's top-level `success` field is not true; the
decode-error frame shows `"Parse Error"` on row 0 and nothing on row 1 (the
detail message goes only to the serial diagnostics). -/
theorem C7_parse_error_iff (env : Env) (hw : env.wifiConnected = true)
    (hs : env.response.status = 200) :
    ((fetchAndDisplay env).branch = Branch.parseError ↔
      (∃ m, env.response.payload = ParseResult.err m) ∨
      (∃ doc, env.response.payload = ParseResult.ok doc ∧
        doc.success = false)) ∧
    ((fetchAndDisplay env).branch = Branch.parseError →
      (fetchAndDisplay env).line1 = "Parse Error" ∧
      (fetchAndDisplay env).line2 = none) := by
  obtain ⟨wifi, st, pl⟩ := env
  subst hw
  simp only at hs
  subst hs
  cases pl with
  | ok doc =>
    by_cases hsu : doc.success = true
    · simp [fetchAndDisplay, renderSnapshot, hsu]
    · simp only [Bool.not_eq_true] at hsu
      simp [fetchAndDisplay, hsu]
  | err m => simp [fetchAndDisplay]

/-- C7 witness: a malformed body on a 200 response shows `"Parse Error"`. -/
theorem C7_witness :
    (fetchAndDisplay ⟨true, ⟨200, ParseResult.err "bad"⟩⟩).branch
        = Branch.parseError ∧
    (fetchAndDisplay ⟨true, ⟨200, ParseResult.err "bad"⟩⟩).line1
        = "Parse Error" := by
  have h := C7_parse_error_iff ⟨true, ⟨200, ParseResult.err "bad"⟩⟩ rfl rfl
  have hb := h.1.mpr (Or.inl ⟨"bad", rfl⟩)
  exact ⟨hb, (h.2 hb).1⟩

/-- C8: in the successful-decode branch (serving and idle alike, since the
source computes line 2 outside the serving/idle split), row 1 shows the
padded `buildLine2` of the decoded wait value; `buildLine2` is `"Wait: ~"`
plus the wait minutes truncated toward zero plus `" min"` (`ratTrunc` is the
floor on nonnegative values and the ceiling on negative ones, i.e.
truncation toward zero); in particular 23.9 renders as `"Wait: ~23 min"`
and 24.0 as `"Wait: ~24 min"`. -/
theorem C8_wait_line (env : Env) (doc : JsonDoc)
    (hw : env.wifiConnected = true) (hs : env.response.status = 200)
    (hp : env.response.payload = ParseResult.ok doc)
    (hsu : doc.success = true) :
    (fetchAndDisplay env).line2
        = some (padRight (buildLine2 (doc.data.estimated_wait_min.getD 0)) 16) ∧
    (∀ w : ℚ, buildLine2 w = "Wait: ~" ++ intDec (ratTrunc w) ++ " min") ∧
    (∀ w : ℚ, 0 ≤ w → ratTrunc w = ⌊w⌋) ∧
    (∀ w : ℚ, w < 0 → ratTrunc w = ⌈w⌉) ∧
    buildLine2 (mkRat 239 10) = "Wait: ~23 min" ∧
    buildLine2 (mkRat 240 10) = "Wait: ~24 min" := by
  refine ⟨?_, fun w => rfl, ratTrunc_nonneg, ratTrunc_neg, by decide, by decide⟩
  simp [fetchAndDisplay, renderSnapshot, hw, hs, hp, hsu]

/-- C8 witness: a concrete idle snapshot with estimated wait 23.9 minutes. -/
theorem C8_witness :
    (fetchAndDisplay ⟨true, ⟨200, ParseResult.ok
        ⟨true, ⟨none, some (mkRat 239 10), none, some "idle"⟩⟩⟩⟩).line2
      = some (padRight (buildLine2 (mkRat 239 10)) 16) ∧
    buildLine2 (mkRat 239 10) = "Wait: ~23 min" := by
  have h := C8_wait_line
    ⟨true, ⟨200, ParseResult.ok
      ⟨true, ⟨none, some (mkRat 239 10), none, some "idle"⟩⟩⟩⟩
    ⟨true, ⟨none, some (mkRat 239 10), none, some "idle"⟩⟩ rfl rfl rfl rfl
  exact ⟨h.1, h.2.2.2.2.1⟩

/-- When every `WiFi.status()` reading is "not connected", the connect loop
uses all 30 attempts. -/
theorem waitForWifiAux_all_false (readings : Nat → Bool)
    (h : ∀ k, readings k = false) :
    ∀ gas a, a + gas = 31 → a ≤ 30 → waitForWifiAux readings gas a = 30 := by
  intro gas
  induction gas with
  | zero => intro a h31 h30; omega
  | succ g ih =>
    intro a h31 h30
    rw [show waitForWifiAux readings (g + 1) a
        = if readings a = true then a
          else if 30 ≤ a then a else waitForWifiAux readings g (a + 1)
      from rfl]
    rw [h a]
    by_cases h30' : 30 ≤ a
    · have ha : a = 30 := by omega
      simp [ha]
    · simp only [Bool.false_eq_true, if_false, if_neg h30']
      exact ih (a + 1) (by omega) (by omega)

/-- C9: if the link never comes up, the startup sequence uses its full
budget of 30 bounded attempts, then `setup` ends in the terminal halted
state showing `"WiFi Failed!"` / `"Check config..."` — the infinite idle
wait — and the device never runs a poll cycle, so no fetch is ever
issued. -/
theorem C9_terminal_halt (readings : Nat → Bool)
    (h : ∀ k, readings k = false) :
    setup readings = SetupResult.halted "WiFi Failed!" "Check config..." ∧
    waitForWifi readings = 30 ∧
    ∀ cycles, bootAndRun readings cycles = [] := by
  have hw : waitForWifi readings = 30 :=
    waitForWifiAux_all_false readings h 31 0 rfl (by omega)
  have hsetup :
      setup readings = SetupResult.halted "WiFi Failed!" "Check config..." := by
    simp [setup, hw, h 31]
  exact ⟨hsetup, hw, fun cycles => by simp [bootAndRun, hsetup]⟩

/-- C9 witness: a network that never connects halts the device in the
failure state after 30 attempts, with no poll cycles ever produced. -/
theorem C9_witness :
    setup (fun _ => false)
        = SetupResult.halted "WiFi Failed!" "Check config..." ∧
    waitForWifi (fun _ => false) = 30 ∧
    bootAndRun (fun _ => false)
        [⟨true, ⟨200, ParseResult.err ""⟩⟩] = [] := by
  have h := C9_terminal_halt (fun _ => false) (fun _ => rfl)
  exact ⟨h.1, h.2.1, h.2.2 _⟩

end OPD
